import Mathlib

/-!
Verification of the UTCI (Universal Thermal Climate Index) implementation:
a shallow embedding over the real numbers of the three core operations
(`es`, `rh_to_vp`, `utci_approx`) together with the thermal-stress
classification used by the example program, and proofs of the stated
properties of the specification.
-/

open Real

namespace Utci

/-- Coefficient table `g` of Hardy's ITS-90 saturation-vapor-pressure
formulation, transcribed from the source (`es`, lines 30-39). -/
noncomputable def g : ℕ → ℝ
  | 0 => -2.8365744e3
  | 1 => -6.028076559e3
  | 2 => 1.954263612e1
  | 3 => -2.737830188e-2
  | 4 => 1.6261698e-5
  | 5 => 7.0229056e-10
  | 6 => -1.8680009e-13
  | 7 => 2.7150305
  | _ => 0

/-- Saturation vapor pressure over water (hPa) for air temperature `ta`
in Celsius.  Mirrors the source function `es`: convert to Kelvin,
start from `g[7] * log tk`, loop `i = 0..6` adding `g[i] * tk^(i-2)`,
then exponentiate and convert Pa to hPa. -/
noncomputable def es (ta : ℝ) : ℝ :=
  let tk := ta + 273.15
  let esVal := (List.range 7).foldl
    (fun acc i => acc + g i * tk ^ ((i : ℤ) - 2)) (g 7 * Real.log tk)
  Real.exp esVal * 0.01

/-- Convert relative humidity (percent) to vapor pressure (hPa);
mirrors the source function `rh_to_vp`. -/
noncomputable def rh_to_vp (ta rh : ℝ) : ℝ :=
  es ta * rh / 100.0

/-- UTCI 6th-order polynomial approximation, mirroring the source
function `utci_approx` term by term (210 monomial terms added to `ta`). -/
noncomputable def utci_approx (ta eh_pa tmrt va : ℝ) : ℝ :=
  let d_tmrt := tmrt - ta
  let pa := eh_pa / 10.0
  ta +
  6.07562052e-01 +
  (-2.27712343e-02 : ℝ) * ta +
  8.06470249e-04 * ta*ta +
  (-1.54271372e-04 : ℝ) * ta*ta*ta +
  (-3.24651735e-06 : ℝ) * ta*ta*ta*ta +
  7.32602852e-08 * ta*ta*ta*ta*ta +
  1.35959073e-09 * ta*ta*ta*ta*ta*ta +
  (-2.25836520e+00 : ℝ) * va +
  8.80326035e-02 * ta*va +
  2.16844454e-03 * ta*ta*va +
  (-1.53347087e-05 : ℝ) * ta*ta*ta*va +
  (-5.72983704e-07 : ℝ) * ta*ta*ta*ta*va +
  (-2.55090145e-09 : ℝ) * ta*ta*ta*ta*ta*va +
  (-7.51269505e-01 : ℝ) * va*va +
  (-4.08350271e-03 : ℝ) * ta*va*va +
  (-5.21670675e-05 : ℝ) * ta*ta*va*va +
  1.94544667e-06 * ta*ta*ta*va*va +
  1.14099531e-08 * ta*ta*ta*ta*va*va +
  1.58137256e-01 * va*va*va +
  (-6.57263143e-05 : ℝ) * ta*va*va*va +
  2.22697524e-07 * ta*ta*va*va*va +
  (-4.16117031e-08 : ℝ) * ta*ta*ta*va*va*va +
  (-1.27762753e-02 : ℝ) * va*va*va*va +
  9.66891875e-06 * ta*va*va*va*va +
  2.52785852e-09 * ta*ta*va*va*va*va +
  4.56306672e-04 * va*va*va*va*va +
  (-1.74202546e-07 : ℝ) * ta*va*va*va*va*va +
  (-5.91491269e-06 : ℝ) * va*va*va*va*va*va +
  3.98374029e-01 * d_tmrt +
  1.83945314e-04 * ta*d_tmrt +
  (-1.73754510e-04 : ℝ) * ta*ta*d_tmrt +
  (-7.60781159e-07 : ℝ) * ta*ta*ta*d_tmrt +
  3.77830287e-08 * ta*ta*ta*ta*d_tmrt +
  5.43079673e-10 * ta*ta*ta*ta*ta*d_tmrt +
  (-2.00518269e-02 : ℝ) * va*d_tmrt +
  8.92859837e-04 * ta*va*d_tmrt +
  3.45433048e-06 * ta*ta*va*d_tmrt +
  (-3.77925774e-07 : ℝ) * ta*ta*ta*va*d_tmrt +
  (-1.69699377e-09 : ℝ) * ta*ta*ta*ta*va*d_tmrt +
  1.69992415e-04 * va*va*d_tmrt +
  (-4.99204314e-05 : ℝ) * ta*va*va*d_tmrt +
  2.47417178e-07 * ta*ta*va*va*d_tmrt +
  1.07596466e-08 * ta*ta*ta*va*va*d_tmrt +
  8.49242932e-05 * va*va*va*d_tmrt +
  1.35191328e-06 * ta*va*va*va*d_tmrt +
  (-6.21531254e-09 : ℝ) * ta*ta*va*va*va*d_tmrt +
  (-4.99410301e-06 : ℝ) * va*va*va*va*d_tmrt +
  (-1.89489258e-08 : ℝ) * ta*va*va*va*va*d_tmrt +
  8.15300114e-08 * va*va*va*va*va*d_tmrt +
  7.55043090e-04 * d_tmrt*d_tmrt +
  (-5.65095215e-05 : ℝ) * ta*d_tmrt*d_tmrt +
  (-4.52166564e-07 : ℝ) * ta*ta*d_tmrt*d_tmrt +
  2.46688878e-08 * ta*ta*ta*d_tmrt*d_tmrt +
  2.42674348e-10 * ta*ta*ta*ta*d_tmrt*d_tmrt +
  1.54547250e-04 * va*d_tmrt*d_tmrt +
  5.24110970e-06 * ta*va*d_tmrt*d_tmrt +
  (-8.75874982e-08 : ℝ) * ta*ta*va*d_tmrt*d_tmrt +
  (-1.50743064e-09 : ℝ) * ta*ta*ta*va*d_tmrt*d_tmrt +
  (-1.56236307e-05 : ℝ) * va*va*d_tmrt*d_tmrt +
  (-1.33895614e-07 : ℝ) * ta*va*va*d_tmrt*d_tmrt +
  2.49709824e-09 * ta*ta*va*va*d_tmrt*d_tmrt +
  6.51711721e-07 * va*va*va*d_tmrt*d_tmrt +
  1.94960053e-09 * ta*va*va*va*d_tmrt*d_tmrt +
  (-1.00361113e-08 : ℝ) * va*va*va*va*d_tmrt*d_tmrt +
  (-1.21206673e-05 : ℝ) * d_tmrt*d_tmrt*d_tmrt +
  (-2.18203660e-07 : ℝ) * ta*d_tmrt*d_tmrt*d_tmrt +
  7.51269482e-09 * ta*ta*d_tmrt*d_tmrt*d_tmrt +
  9.79063848e-11 * ta*ta*ta*d_tmrt*d_tmrt*d_tmrt +
  1.25006734e-06 * va*d_tmrt*d_tmrt*d_tmrt +
  (-1.81584736e-09 : ℝ) * ta*va*d_tmrt*d_tmrt*d_tmrt +
  (-3.52197671e-10 : ℝ) * ta*ta*va*d_tmrt*d_tmrt*d_tmrt +
  (-3.36514630e-08 : ℝ) * va*va*d_tmrt*d_tmrt*d_tmrt +
  1.35908359e-10 * ta*va*va*d_tmrt*d_tmrt*d_tmrt +
  4.17032620e-10 * va*va*va*d_tmrt*d_tmrt*d_tmrt +
  (-1.30369025e-09 : ℝ) * d_tmrt*d_tmrt*d_tmrt*d_tmrt +
  4.13908461e-10 * ta*d_tmrt*d_tmrt*d_tmrt*d_tmrt +
  9.22652254e-12 * ta*ta*d_tmrt*d_tmrt*d_tmrt*d_tmrt +
  (-5.08220384e-09 : ℝ) * va*d_tmrt*d_tmrt*d_tmrt*d_tmrt +
  (-2.24730961e-11 : ℝ) * ta*va*d_tmrt*d_tmrt*d_tmrt*d_tmrt +
  1.17139133e-10 * va*va*d_tmrt*d_tmrt*d_tmrt*d_tmrt +
  6.62154879e-10 * d_tmrt*d_tmrt*d_tmrt*d_tmrt*d_tmrt +
  4.03863260e-13 * ta*d_tmrt*d_tmrt*d_tmrt*d_tmrt*d_tmrt +
  1.95087203e-12 * va*d_tmrt*d_tmrt*d_tmrt*d_tmrt*d_tmrt +
  (-4.73602469e-12 : ℝ) * d_tmrt*d_tmrt*d_tmrt*d_tmrt*d_tmrt*d_tmrt +
  5.12733497e+00 * pa +
  (-3.12788561e-01 : ℝ) * ta*pa +
  (-1.96701861e-02 : ℝ) * ta*ta*pa +
  9.99690870e-04 * ta*ta*ta*pa +
  9.51738512e-06 * ta*ta*ta*ta*pa +
  (-4.66426341e-07 : ℝ) * ta*ta*ta*ta*ta*pa +
  5.48050612e-01 * va*pa +
  (-3.30552823e-03 : ℝ) * ta*va*pa +
  (-1.64119440e-03 : ℝ) * ta*ta*va*pa +
  (-5.16670694e-06 : ℝ) * ta*ta*ta*va*pa +
  9.52692432e-07 * ta*ta*ta*ta*va*pa +
  (-4.29223622e-02 : ℝ) * va*va*pa +
  5.00845667e-03 * ta*va*va*pa +
  1.00601257e-06 * ta*ta*va*va*pa +
  (-1.81748644e-06 : ℝ) * ta*ta*ta*va*va*pa +
  (-1.25813502e-03 : ℝ) * va*va*va*pa +
  (-1.79330391e-04 : ℝ) * ta*va*va*va*pa +
  2.34994441e-06 * ta*ta*va*va*va*pa +
  1.29735808e-04 * va*va*va*va*pa +
  1.29064870e-06 * ta*va*va*va*va*pa +
  (-2.28558686e-06 : ℝ) * va*va*va*va*va*pa +
  (-3.69476348e-02 : ℝ) * d_tmrt*pa +
  1.62325322e-03 * ta*d_tmrt*pa +
  (-3.14279680e-05 : ℝ) * ta*ta*d_tmrt*pa +
  2.59835559e-06 * ta*ta*ta*d_tmrt*pa +
  (-4.77136523e-08 : ℝ) * ta*ta*ta*ta*d_tmrt*pa +
  8.64203390e-03 * va*d_tmrt*pa +
  (-6.87405181e-04 : ℝ) * ta*va*d_tmrt*pa +
  (-9.13863872e-06 : ℝ) * ta*ta*va*d_tmrt*pa +
  5.15916806e-07 * ta*ta*ta*va*d_tmrt*pa +
  (-3.59217476e-05 : ℝ) * va*va*d_tmrt*pa +
  3.28696511e-05 * ta*va*va*d_tmrt*pa +
  (-7.10542454e-07 : ℝ) * ta*ta*va*va*d_tmrt*pa +
  (-1.24382300e-05 : ℝ) * va*va*va*d_tmrt*pa +
  (-7.38584400e-09 : ℝ) * ta*va*va*va*d_tmrt*pa +
  2.20609296e-07 * va*va*va*va*d_tmrt*pa +
  (-7.32469180e-04 : ℝ) * d_tmrt*d_tmrt*pa +
  (-1.87381964e-05 : ℝ) * ta*d_tmrt*d_tmrt*pa +
  4.80925239e-06 * ta*ta*d_tmrt*d_tmrt*pa +
  (-8.75492040e-08 : ℝ) * ta*ta*ta*d_tmrt*d_tmrt*pa +
  2.77862930e-05 * va*d_tmrt*d_tmrt*pa +
  (-5.06004592e-06 : ℝ) * ta*va*d_tmrt*d_tmrt*pa +
  1.14325367e-07 * ta*ta*va*d_tmrt*d_tmrt*pa +
  2.53016723e-06 * va*va*d_tmrt*d_tmrt*pa +
  (-1.72857035e-08 : ℝ) * ta*va*va*d_tmrt*d_tmrt*pa +
  (-3.95079398e-08 : ℝ) * va*va*va*d_tmrt*d_tmrt*pa +
  (-3.59413173e-07 : ℝ) * d_tmrt*d_tmrt*d_tmrt*pa +
  7.04388046e-07 * ta*d_tmrt*d_tmrt*d_tmrt*pa +
  (-1.89309167e-08 : ℝ) * ta*ta*d_tmrt*d_tmrt*d_tmrt*pa +
  (-4.79768731e-07 : ℝ) * va*d_tmrt*d_tmrt*d_tmrt*pa +
  7.96079978e-09 * ta*va*d_tmrt*d_tmrt*d_tmrt*pa +
  1.62897058e-09 * va*va*d_tmrt*d_tmrt*d_tmrt*pa +
  3.94367674e-08 * d_tmrt*d_tmrt*d_tmrt*d_tmrt*pa +
  (-1.18566247e-09 : ℝ) * ta*d_tmrt*d_tmrt*d_tmrt*d_tmrt*pa +
  3.34678041e-10 * va*d_tmrt*d_tmrt*d_tmrt*d_tmrt*pa +
  (-1.15606447e-10 : ℝ) * d_tmrt*d_tmrt*d_tmrt*d_tmrt*d_tmrt*pa +
  (-2.80626406e+00 : ℝ) * pa*pa +
  5.48712484e-01 * ta*pa*pa +
  (-3.99428410e-03 : ℝ) * ta*ta*pa*pa +
  (-9.54009191e-04 : ℝ) * ta*ta*ta*pa*pa +
  1.93090978e-05 * ta*ta*ta*ta*pa*pa +
  (-3.08806365e-01 : ℝ) * va*pa*pa +
  1.16952364e-02 * ta*va*pa*pa +
  4.95271903e-04 * ta*ta*va*pa*pa +
  (-1.90710882e-05 : ℝ) * ta*ta*ta*va*pa*pa +
  2.10787756e-03 * va*va*pa*pa +
  (-6.98445738e-04 : ℝ) * ta*va*va*pa*pa +
  2.30109073e-05 * ta*ta*va*va*pa*pa +
  4.17856590e-04 * va*va*va*pa*pa +
  (-1.27043871e-05 : ℝ) * ta*va*va*va*pa*pa +
  (-3.04620472e-06 : ℝ) * va*va*va*va*pa*pa +
  5.14507424e-02 * d_tmrt*pa*pa +
  (-4.32510997e-03 : ℝ) * ta*d_tmrt*pa*pa +
  8.99281156e-05 * ta*ta*d_tmrt*pa*pa +
  (-7.14663943e-07 : ℝ) * ta*ta*ta*d_tmrt*pa*pa +
  (-2.66016305e-04 : ℝ) * va*d_tmrt*pa*pa +
  2.63789586e-04 * ta*va*d_tmrt*pa*pa +
  (-7.01199003e-06 : ℝ) * ta*ta*va*d_tmrt*pa*pa +
  (-1.06823306e-04 : ℝ) * va*va*d_tmrt*pa*pa +
  3.61341136e-06 * ta*va*va*d_tmrt*pa*pa +
  2.29748967e-07 * va*va*va*d_tmrt*pa*pa +
  3.04788893e-04 * d_tmrt*d_tmrt*pa*pa +
  (-6.42070836e-05 : ℝ) * ta*d_tmrt*d_tmrt*pa*pa +
  1.16257971e-06 * ta*ta*d_tmrt*d_tmrt*pa*pa +
  7.68023384e-06 * va*d_tmrt*d_tmrt*pa*pa +
  (-5.47446896e-07 : ℝ) * ta*va*d_tmrt*d_tmrt*pa*pa +
  (-3.59937910e-08 : ℝ) * va*va*d_tmrt*d_tmrt*pa*pa +
  (-4.36497725e-06 : ℝ) * d_tmrt*d_tmrt*d_tmrt*pa*pa +
  1.68737969e-07 * ta*d_tmrt*d_tmrt*d_tmrt*pa*pa +
  2.67489271e-08 * va*d_tmrt*d_tmrt*d_tmrt*pa*pa +
  3.23926897e-09 * d_tmrt*d_tmrt*d_tmrt*d_tmrt*pa*pa +
  (-3.53874123e-02 : ℝ) * pa*pa*pa +
  (-2.21201190e-01 : ℝ) * ta*pa*pa*pa +
  1.55126038e-02 * ta*ta*pa*pa*pa +
  (-2.63917279e-04 : ℝ) * ta*ta*ta*pa*pa*pa +
  4.53433455e-02 * va*pa*pa*pa +
  (-4.32943862e-03 : ℝ) * ta*va*pa*pa*pa +
  1.45389826e-04 * ta*ta*va*pa*pa*pa +
  2.17508610e-04 * va*va*pa*pa*pa +
  (-6.66724702e-05 : ℝ) * ta*va*va*pa*pa*pa +
  3.33217140e-05 * va*va*va*pa*pa*pa +
  (-2.26921615e-03 : ℝ) * d_tmrt*pa*pa*pa +
  3.80261982e-04 * ta*d_tmrt*pa*pa*pa +
  (-5.45314314e-09 : ℝ) * ta*ta*d_tmrt*pa*pa*pa +
  (-7.96355448e-04 : ℝ) * va*d_tmrt*pa*pa*pa +
  2.53458034e-05 * ta*va*d_tmrt*pa*pa*pa +
  (-6.31223658e-06 : ℝ) * va*va*d_tmrt*pa*pa*pa +
  3.02122035e-04 * d_tmrt*d_tmrt*pa*pa*pa +
  (-4.77403547e-06 : ℝ) * ta*d_tmrt*d_tmrt*pa*pa*pa +
  1.73825715e-06 * va*d_tmrt*d_tmrt*pa*pa*pa +
  (-4.09087898e-07 : ℝ) * d_tmrt*d_tmrt*d_tmrt*pa*pa*pa +
  6.14155345e-01 * pa*pa*pa*pa +
  (-6.16755931e-02 : ℝ) * ta*pa*pa*pa*pa +
  1.33374846e-03 * ta*ta*pa*pa*pa*pa +
  3.55375387e-03 * va*pa*pa*pa*pa +
  (-5.13027851e-04 : ℝ) * ta*va*pa*pa*pa*pa +
  1.02449757e-04 * va*va*pa*pa*pa*pa +
  (-1.48526421e-03 : ℝ) * d_tmrt*pa*pa*pa*pa +
  (-4.11469183e-05 : ℝ) * ta*d_tmrt*pa*pa*pa*pa +
  (-6.80434415e-06 : ℝ) * va*d_tmrt*pa*pa*pa*pa +
  (-9.77675906e-06 : ℝ) * d_tmrt*d_tmrt*pa*pa*pa*pa +
  8.82773108e-02 * pa*pa*pa*pa*pa +
  (-3.01859306e-03 : ℝ) * ta*pa*pa*pa*pa*pa +
  1.04452989e-03 * va*pa*pa*pa*pa*pa +
  2.47090539e-04 * d_tmrt*pa*pa*pa*pa*pa +
  1.48348065e-03 * pa*pa*pa*pa*pa*pa

/-- The 210 terms of the UTCI approximation polynomial, written as the
specification describes them: a literal coefficient paired with the
exponents of `ta`, `va`, `d_tmrt`, `pa` in that term's monomial. -/
noncomputable def utciTerms : List (ℝ × ℕ × ℕ × ℕ × ℕ) := [
  ((6.07562052e-01 : ℝ), 0, 0, 0, 0),
  ((-2.27712343e-02 : ℝ), 1, 0, 0, 0),
  ((8.06470249e-04 : ℝ), 2, 0, 0, 0),
  ((-1.54271372e-04 : ℝ), 3, 0, 0, 0),
  ((-3.24651735e-06 : ℝ), 4, 0, 0, 0),
  ((7.32602852e-08 : ℝ), 5, 0, 0, 0),
  ((1.35959073e-09 : ℝ), 6, 0, 0, 0),
  ((-2.25836520e+00 : ℝ), 0, 1, 0, 0),
  ((8.80326035e-02 : ℝ), 1, 1, 0, 0),
  ((2.16844454e-03 : ℝ), 2, 1, 0, 0),
  ((-1.53347087e-05 : ℝ), 3, 1, 0, 0),
  ((-5.72983704e-07 : ℝ), 4, 1, 0, 0),
  ((-2.55090145e-09 : ℝ), 5, 1, 0, 0),
  ((-7.51269505e-01 : ℝ), 0, 2, 0, 0),
  ((-4.08350271e-03 : ℝ), 1, 2, 0, 0),
  ((-5.21670675e-05 : ℝ), 2, 2, 0, 0),
  ((1.94544667e-06 : ℝ), 3, 2, 0, 0),
  ((1.14099531e-08 : ℝ), 4, 2, 0, 0),
  ((1.58137256e-01 : ℝ), 0, 3, 0, 0),
  ((-6.57263143e-05 : ℝ), 1, 3, 0, 0),
  ((2.22697524e-07 : ℝ), 2, 3, 0, 0),
  ((-4.16117031e-08 : ℝ), 3, 3, 0, 0),
  ((-1.27762753e-02 : ℝ), 0, 4, 0, 0),
  ((9.66891875e-06 : ℝ), 1, 4, 0, 0),
  ((2.52785852e-09 : ℝ), 2, 4, 0, 0),
  ((4.56306672e-04 : ℝ), 0, 5, 0, 0),
  ((-1.74202546e-07 : ℝ), 1, 5, 0, 0),
  ((-5.91491269e-06 : ℝ), 0, 6, 0, 0),
  ((3.98374029e-01 : ℝ), 0, 0, 1, 0),
  ((1.83945314e-04 : ℝ), 1, 0, 1, 0),
  ((-1.73754510e-04 : ℝ), 2, 0, 1, 0),
  ((-7.60781159e-07 : ℝ), 3, 0, 1, 0),
  ((3.77830287e-08 : ℝ), 4, 0, 1, 0),
  ((5.43079673e-10 : ℝ), 5, 0, 1, 0),
  ((-2.00518269e-02 : ℝ), 0, 1, 1, 0),
  ((8.92859837e-04 : ℝ), 1, 1, 1, 0),
  ((3.45433048e-06 : ℝ), 2, 1, 1, 0),
  ((-3.77925774e-07 : ℝ), 3, 1, 1, 0),
  ((-1.69699377e-09 : ℝ), 4, 1, 1, 0),
  ((1.69992415e-04 : ℝ), 0, 2, 1, 0),
  ((-4.99204314e-05 : ℝ), 1, 2, 1, 0),
  ((2.47417178e-07 : ℝ), 2, 2, 1, 0),
  ((1.07596466e-08 : ℝ), 3, 2, 1, 0),
  ((8.49242932e-05 : ℝ), 0, 3, 1, 0),
  ((1.35191328e-06 : ℝ), 1, 3, 1, 0),
  ((-6.21531254e-09 : ℝ), 2, 3, 1, 0),
  ((-4.99410301e-06 : ℝ), 0, 4, 1, 0),
  ((-1.89489258e-08 : ℝ), 1, 4, 1, 0),
  ((8.15300114e-08 : ℝ), 0, 5, 1, 0),
  ((7.55043090e-04 : ℝ), 0, 0, 2, 0),
  ((-5.65095215e-05 : ℝ), 1, 0, 2, 0),
  ((-4.52166564e-07 : ℝ), 2, 0, 2, 0),
  ((2.46688878e-08 : ℝ), 3, 0, 2, 0),
  ((2.42674348e-10 : ℝ), 4, 0, 2, 0),
  ((1.54547250e-04 : ℝ), 0, 1, 2, 0),
  ((5.24110970e-06 : ℝ), 1, 1, 2, 0),
  ((-8.75874982e-08 : ℝ), 2, 1, 2, 0),
  ((-1.50743064e-09 : ℝ), 3, 1, 2, 0),
  ((-1.56236307e-05 : ℝ), 0, 2, 2, 0),
  ((-1.33895614e-07 : ℝ), 1, 2, 2, 0),
  ((2.49709824e-09 : ℝ), 2, 2, 2, 0),
  ((6.51711721e-07 : ℝ), 0, 3, 2, 0),
  ((1.94960053e-09 : ℝ), 1, 3, 2, 0),
  ((-1.00361113e-08 : ℝ), 0, 4, 2, 0),
  ((-1.21206673e-05 : ℝ), 0, 0, 3, 0),
  ((-2.18203660e-07 : ℝ), 1, 0, 3, 0),
  ((7.51269482e-09 : ℝ), 2, 0, 3, 0),
  ((9.79063848e-11 : ℝ), 3, 0, 3, 0),
  ((1.25006734e-06 : ℝ), 0, 1, 3, 0),
  ((-1.81584736e-09 : ℝ), 1, 1, 3, 0),
  ((-3.52197671e-10 : ℝ), 2, 1, 3, 0),
  ((-3.36514630e-08 : ℝ), 0, 2, 3, 0),
  ((1.35908359e-10 : ℝ), 1, 2, 3, 0),
  ((4.17032620e-10 : ℝ), 0, 3, 3, 0),
  ((-1.30369025e-09 : ℝ), 0, 0, 4, 0),
  ((4.13908461e-10 : ℝ), 1, 0, 4, 0),
  ((9.22652254e-12 : ℝ), 2, 0, 4, 0),
  ((-5.08220384e-09 : ℝ), 0, 1, 4, 0),
  ((-2.24730961e-11 : ℝ), 1, 1, 4, 0),
  ((1.17139133e-10 : ℝ), 0, 2, 4, 0),
  ((6.62154879e-10 : ℝ), 0, 0, 5, 0),
  ((4.03863260e-13 : ℝ), 1, 0, 5, 0),
  ((1.95087203e-12 : ℝ), 0, 1, 5, 0),
  ((-4.73602469e-12 : ℝ), 0, 0, 6, 0),
  ((5.12733497e+00 : ℝ), 0, 0, 0, 1),
  ((-3.12788561e-01 : ℝ), 1, 0, 0, 1),
  ((-1.96701861e-02 : ℝ), 2, 0, 0, 1),
  ((9.99690870e-04 : ℝ), 3, 0, 0, 1),
  ((9.51738512e-06 : ℝ), 4, 0, 0, 1),
  ((-4.66426341e-07 : ℝ), 5, 0, 0, 1),
  ((5.48050612e-01 : ℝ), 0, 1, 0, 1),
  ((-3.30552823e-03 : ℝ), 1, 1, 0, 1),
  ((-1.64119440e-03 : ℝ), 2, 1, 0, 1),
  ((-5.16670694e-06 : ℝ), 3, 1, 0, 1),
  ((9.52692432e-07 : ℝ), 4, 1, 0, 1),
  ((-4.29223622e-02 : ℝ), 0, 2, 0, 1),
  ((5.00845667e-03 : ℝ), 1, 2, 0, 1),
  ((1.00601257e-06 : ℝ), 2, 2, 0, 1),
  ((-1.81748644e-06 : ℝ), 3, 2, 0, 1),
  ((-1.25813502e-03 : ℝ), 0, 3, 0, 1),
  ((-1.79330391e-04 : ℝ), 1, 3, 0, 1),
  ((2.34994441e-06 : ℝ), 2, 3, 0, 1),
  ((1.29735808e-04 : ℝ), 0, 4, 0, 1),
  ((1.29064870e-06 : ℝ), 1, 4, 0, 1),
  ((-2.28558686e-06 : ℝ), 0, 5, 0, 1),
  ((-3.69476348e-02 : ℝ), 0, 0, 1, 1),
  ((1.62325322e-03 : ℝ), 1, 0, 1, 1),
  ((-3.14279680e-05 : ℝ), 2, 0, 1, 1),
  ((2.59835559e-06 : ℝ), 3, 0, 1, 1),
  ((-4.77136523e-08 : ℝ), 4, 0, 1, 1),
  ((8.64203390e-03 : ℝ), 0, 1, 1, 1),
  ((-6.87405181e-04 : ℝ), 1, 1, 1, 1),
  ((-9.13863872e-06 : ℝ), 2, 1, 1, 1),
  ((5.15916806e-07 : ℝ), 3, 1, 1, 1),
  ((-3.59217476e-05 : ℝ), 0, 2, 1, 1),
  ((3.28696511e-05 : ℝ), 1, 2, 1, 1),
  ((-7.10542454e-07 : ℝ), 2, 2, 1, 1),
  ((-1.24382300e-05 : ℝ), 0, 3, 1, 1),
  ((-7.38584400e-09 : ℝ), 1, 3, 1, 1),
  ((2.20609296e-07 : ℝ), 0, 4, 1, 1),
  ((-7.32469180e-04 : ℝ), 0, 0, 2, 1),
  ((-1.87381964e-05 : ℝ), 1, 0, 2, 1),
  ((4.80925239e-06 : ℝ), 2, 0, 2, 1),
  ((-8.75492040e-08 : ℝ), 3, 0, 2, 1),
  ((2.77862930e-05 : ℝ), 0, 1, 2, 1),
  ((-5.06004592e-06 : ℝ), 1, 1, 2, 1),
  ((1.14325367e-07 : ℝ), 2, 1, 2, 1),
  ((2.53016723e-06 : ℝ), 0, 2, 2, 1),
  ((-1.72857035e-08 : ℝ), 1, 2, 2, 1),
  ((-3.95079398e-08 : ℝ), 0, 3, 2, 1),
  ((-3.59413173e-07 : ℝ), 0, 0, 3, 1),
  ((7.04388046e-07 : ℝ), 1, 0, 3, 1),
  ((-1.89309167e-08 : ℝ), 2, 0, 3, 1),
  ((-4.79768731e-07 : ℝ), 0, 1, 3, 1),
  ((7.96079978e-09 : ℝ), 1, 1, 3, 1),
  ((1.62897058e-09 : ℝ), 0, 2, 3, 1),
  ((3.94367674e-08 : ℝ), 0, 0, 4, 1),
  ((-1.18566247e-09 : ℝ), 1, 0, 4, 1),
  ((3.34678041e-10 : ℝ), 0, 1, 4, 1),
  ((-1.15606447e-10 : ℝ), 0, 0, 5, 1),
  ((-2.80626406e+00 : ℝ), 0, 0, 0, 2),
  ((5.48712484e-01 : ℝ), 1, 0, 0, 2),
  ((-3.99428410e-03 : ℝ), 2, 0, 0, 2),
  ((-9.54009191e-04 : ℝ), 3, 0, 0, 2),
  ((1.93090978e-05 : ℝ), 4, 0, 0, 2),
  ((-3.08806365e-01 : ℝ), 0, 1, 0, 2),
  ((1.16952364e-02 : ℝ), 1, 1, 0, 2),
  ((4.95271903e-04 : ℝ), 2, 1, 0, 2),
  ((-1.90710882e-05 : ℝ), 3, 1, 0, 2),
  ((2.10787756e-03 : ℝ), 0, 2, 0, 2),
  ((-6.98445738e-04 : ℝ), 1, 2, 0, 2),
  ((2.30109073e-05 : ℝ), 2, 2, 0, 2),
  ((4.17856590e-04 : ℝ), 0, 3, 0, 2),
  ((-1.27043871e-05 : ℝ), 1, 3, 0, 2),
  ((-3.04620472e-06 : ℝ), 0, 4, 0, 2),
  ((5.14507424e-02 : ℝ), 0, 0, 1, 2),
  ((-4.32510997e-03 : ℝ), 1, 0, 1, 2),
  ((8.99281156e-05 : ℝ), 2, 0, 1, 2),
  ((-7.14663943e-07 : ℝ), 3, 0, 1, 2),
  ((-2.66016305e-04 : ℝ), 0, 1, 1, 2),
  ((2.63789586e-04 : ℝ), 1, 1, 1, 2),
  ((-7.01199003e-06 : ℝ), 2, 1, 1, 2),
  ((-1.06823306e-04 : ℝ), 0, 2, 1, 2),
  ((3.61341136e-06 : ℝ), 1, 2, 1, 2),
  ((2.29748967e-07 : ℝ), 0, 3, 1, 2),
  ((3.04788893e-04 : ℝ), 0, 0, 2, 2),
  ((-6.42070836e-05 : ℝ), 1, 0, 2, 2),
  ((1.16257971e-06 : ℝ), 2, 0, 2, 2),
  ((7.68023384e-06 : ℝ), 0, 1, 2, 2),
  ((-5.47446896e-07 : ℝ), 1, 1, 2, 2),
  ((-3.59937910e-08 : ℝ), 0, 2, 2, 2),
  ((-4.36497725e-06 : ℝ), 0, 0, 3, 2),
  ((1.68737969e-07 : ℝ), 1, 0, 3, 2),
  ((2.67489271e-08 : ℝ), 0, 1, 3, 2),
  ((3.23926897e-09 : ℝ), 0, 0, 4, 2),
  ((-3.53874123e-02 : ℝ), 0, 0, 0, 3),
  ((-2.21201190e-01 : ℝ), 1, 0, 0, 3),
  ((1.55126038e-02 : ℝ), 2, 0, 0, 3),
  ((-2.63917279e-04 : ℝ), 3, 0, 0, 3),
  ((4.53433455e-02 : ℝ), 0, 1, 0, 3),
  ((-4.32943862e-03 : ℝ), 1, 1, 0, 3),
  ((1.45389826e-04 : ℝ), 2, 1, 0, 3),
  ((2.17508610e-04 : ℝ), 0, 2, 0, 3),
  ((-6.66724702e-05 : ℝ), 1, 2, 0, 3),
  ((3.33217140e-05 : ℝ), 0, 3, 0, 3),
  ((-2.26921615e-03 : ℝ), 0, 0, 1, 3),
  ((3.80261982e-04 : ℝ), 1, 0, 1, 3),
  ((-5.45314314e-09 : ℝ), 2, 0, 1, 3),
  ((-7.96355448e-04 : ℝ), 0, 1, 1, 3),
  ((2.53458034e-05 : ℝ), 1, 1, 1, 3),
  ((-6.31223658e-06 : ℝ), 0, 2, 1, 3),
  ((3.02122035e-04 : ℝ), 0, 0, 2, 3),
  ((-4.77403547e-06 : ℝ), 1, 0, 2, 3),
  ((1.73825715e-06 : ℝ), 0, 1, 2, 3),
  ((-4.09087898e-07 : ℝ), 0, 0, 3, 3),
  ((6.14155345e-01 : ℝ), 0, 0, 0, 4),
  ((-6.16755931e-02 : ℝ), 1, 0, 0, 4),
  ((1.33374846e-03 : ℝ), 2, 0, 0, 4),
  ((3.55375387e-03 : ℝ), 0, 1, 0, 4),
  ((-5.13027851e-04 : ℝ), 1, 1, 0, 4),
  ((1.02449757e-04 : ℝ), 0, 2, 0, 4),
  ((-1.48526421e-03 : ℝ), 0, 0, 1, 4),
  ((-4.11469183e-05 : ℝ), 1, 0, 1, 4),
  ((-6.80434415e-06 : ℝ), 0, 1, 1, 4),
  ((-9.77675906e-06 : ℝ), 0, 0, 2, 4),
  ((8.82773108e-02 : ℝ), 0, 0, 0, 5),
  ((-3.01859306e-03 : ℝ), 1, 0, 0, 5),
  ((1.04452989e-03 : ℝ), 0, 1, 0, 5),
  ((2.47090539e-04 : ℝ), 0, 0, 1, 5),
  ((1.48348065e-03 : ℝ), 0, 0, 0, 6)
  ]


/-- Evaluation of the term table as a polynomial: the sum over all terms of
the coefficient times the monomial in `ta`, `va`, `d_tmrt`, `pa`. -/
noncomputable def polyP (ta va d_tmrt pa : ℝ) : ℝ :=
  (utciTerms.map (fun t =>
    t.1 * ta ^ t.2.1 * va ^ t.2.2.1 * d_tmrt ^ t.2.2.2.1 * pa ^ t.2.2.2.2)).sum

/-- Thermal-stress classification from the example program: the fixed
ten-band threshold table. -/
noncomputable def comfort (utci : ℝ) : String :=
  if utci < -40 then "extreme cold stress"
  else if utci < -27 then "very strong cold stress"
  else if utci < -13 then "strong cold stress"
  else if utci < 0 then "moderate cold stress"
  else if utci < 9 then "slight cold stress"
  else if utci < 26 then "no thermal stress"
  else if utci < 32 then "moderate heat stress"
  else if utci < 38 then "strong heat stress"
  else if utci < 46 then "very strong heat stress"
  else "extreme heat stress"

/-- The exponent accumulated inside `es` before exponentiation, as a closed
formula in the Kelvin temperature. -/
noncomputable def esArg (tk : ℝ) : ℝ :=
  2.7150305 * Real.log tk +
    ((-2.8365744e3 : ℝ) * tk ^ (-2 : ℤ) +
     (-6.028076559e3 : ℝ) * tk ^ (-1 : ℤ) +
     (1.954263612e1 : ℝ) * tk ^ (0 : ℤ) +
     (-2.737830188e-2 : ℝ) * tk ^ (1 : ℤ) +
     (1.6261698e-5 : ℝ) * tk ^ (2 : ℤ) +
     (7.0229056e-10 : ℝ) * tk ^ (3 : ℤ) +
     (-1.8680009e-13 : ℝ) * tk ^ (4 : ℤ))

lemma es_esArg (ta : ℝ) : es ta = Real.exp (esArg (ta + 273.15)) * 0.01 := by
  simp only [es, esArg, g, List.range_succ, List.range_zero, List.nil_append,
    List.cons_append, List.foldl_cons, List.foldl_nil]
  norm_num
  ring_nf

lemma es_pos (ta : ℝ) : 0 < es ta := by
  rw [es_esArg]
  positivity

lemma exp_taylor_low {f : ℝ} (h0 : 0 ≤ f) :
    1 + f + f ^ 2 / 2 + f ^ 3 / 6 + f ^ 4 / 24 + f ^ 5 / 120 + f ^ 6 / 720 +
      f ^ 7 / 5040 + f ^ 8 / 40320 + f ^ 9 / 362880 ≤ Real.exp f := by
  have h := Real.sum_le_exp_of_nonneg h0 10
  simp only [Finset.sum_range_succ, Finset.sum_range_zero, Nat.factorial] at h
  norm_num at h
  linarith

lemma exp_taylor_up {f : ℝ} (h0 : 0 ≤ f) (h1 : f ≤ 1) :
    Real.exp f ≤ 1 + f + f ^ 2 / 2 + f ^ 3 / 6 + f ^ 4 / 24 + f ^ 5 / 120 + f ^ 6 / 720 +
      f ^ 7 / 5040 + f ^ 8 / 40320 + f ^ 9 / 362880 + f ^ 10 * 11 / 36288000 := by
  have h := @Real.exp_bound' f h0 h1 10 (by norm_num)
  simp only [Finset.sum_range_succ, Finset.sum_range_zero, Nat.factorial] at h
  norm_num at h
  linarith

lemma exp_split (k : ℕ) (f : ℝ) : Real.exp ((k : ℝ) + f) = Real.exp 1 ^ k * Real.exp f := by
  rw [Real.exp_add]
  congr 1
  rw [← Real.exp_nat_mul, mul_one]

lemma le_exp_est (k : ℕ) (f c : ℝ) (h0 : 0 ≤ f)
    (hc : c ≤ 2.7182818283 ^ k * (1 + f + f ^ 2 / 2 + f ^ 3 / 6 + f ^ 4 / 24 + f ^ 5 / 120 +
      f ^ 6 / 720 + f ^ 7 / 5040 + f ^ 8 / 40320 + f ^ 9 / 362880)) :
    c ≤ Real.exp ((k : ℝ) + f) := by
  rw [exp_split]
  refine le_trans hc (mul_le_mul ?_ (exp_taylor_low h0) ?_ (pow_nonneg (Real.exp_pos 1).le k))
  · exact pow_le_pow_left₀ (by norm_num) Real.exp_one_gt_d9.le k
  · have h2 := pow_nonneg h0 2
    have h3 := pow_nonneg h0 3
    have h4 := pow_nonneg h0 4
    have h5 := pow_nonneg h0 5
    have h6 := pow_nonneg h0 6
    have h7 := pow_nonneg h0 7
    have h8 := pow_nonneg h0 8
    have h9 := pow_nonneg h0 9
    linarith

lemma exp_le_est (k : ℕ) (f c : ℝ) (h0 : 0 ≤ f) (h1 : f ≤ 1)
    (hc : 2.7182818286 ^ k * (1 + f + f ^ 2 / 2 + f ^ 3 / 6 + f ^ 4 / 24 + f ^ 5 / 120 +
      f ^ 6 / 720 + f ^ 7 / 5040 + f ^ 8 / 40320 + f ^ 9 / 362880 +
      f ^ 10 * 11 / 36288000) ≤ c) :
    Real.exp ((k : ℝ) + f) ≤ c := by
  rw [exp_split]
  refine le_trans (mul_le_mul ?_ (exp_taylor_up h0 h1) (Real.exp_pos f).le
    (pow_nonneg (by norm_num) k)) hc
  exact pow_le_pow_left₀ (Real.exp_pos 1).le Real.exp_one_lt_d9.le k

lemma log_between {t l u : ℝ} (ht : 0 < t) (hl : Real.exp l < t) (hu : t < Real.exp u) :
    l < Real.log t ∧ Real.log t < u :=
  ⟨(Real.lt_log_iff_exp_lt ht).mpr hl, (Real.log_lt_iff_lt_exp ht).mpr hu⟩


lemma log_27315 : (5.610015 : ℝ) < Real.log 273.15 ∧ Real.log 273.15 < 5.610027 := by
  have harg1 : ((5 : ℕ) : ℝ) + 0.610015 = 5.610015 := by norm_num
  have harg2 : ((5 : ℕ) : ℝ) + 0.610027 = 5.610027 := by norm_num
  refine log_between (by norm_num) ?_ ?_
  · have h := exp_le_est 5 0.610015 (682871/2500 : ℝ) (by norm_num) (by norm_num) (by norm_num)
    rw [harg1] at h
    linarith
  · have h := le_exp_est 5 0.610027 (682879/2500 : ℝ) (by norm_num) (by norm_num)
    rw [harg2] at h
    linarith

lemma esArg_27315 : (6.4154288 : ℝ) ≤ esArg 273.15 ∧ esArg 273.15 ≤ 6.4154614 := by
  obtain ⟨hL1, hL2⟩ := log_27315
  unfold esArg
  norm_num
  constructor <;> linarith

lemma es_0_bounds : (6.110 : ℝ) ≤ es 0 ∧ es 0 ≤ 6.114 := by
  obtain ⟨hA1, hA2⟩ := esArg_27315
  have heq : es 0 = Real.exp (esArg 273.15) * 0.01 := by
    rw [es_esArg]
    norm_num
  rw [heq]
  have harg1 : ((6 : ℕ) : ℝ) + 0.4154288 = 6.4154288 := by norm_num
  have harg2 : ((6 : ℕ) : ℝ) + 0.4154614 = 6.4154614 := by norm_num
  have hlo : (611 : ℝ) ≤ Real.exp (6.4154288 : ℝ) := by
    have h := le_exp_est 6 0.4154288 (611 : ℝ) (by norm_num) (by norm_num)
    rwa [harg1] at h
  have hhi : Real.exp (6.4154614 : ℝ) ≤ 3057/5 := by
    have h := exp_le_est 6 0.4154614 (3057/5 : ℝ) (by norm_num) (by norm_num) (by norm_num)
    rwa [harg2] at h
  have m1 := Real.exp_le_exp.mpr hA1
  have m2 := Real.exp_le_exp.mpr hA2
  constructor <;> linarith


lemma log_29315 : (5.680675 : ℝ) < Real.log 293.15 ∧ Real.log 293.15 < 5.680694 := by
  have harg1 : ((5 : ℕ) : ℝ) + 0.680675 = 5.680675 := by norm_num
  have harg2 : ((5 : ℕ) : ℝ) + 0.680694 = 5.680694 := by norm_num
  refine log_between (by norm_num) ?_ ?_
  · have h := exp_le_est 5 0.680675 (2931473/10000 : ℝ) (by norm_num) (by norm_num) (by norm_num)
    rw [harg1] at h
    linarith
  · have h := le_exp_est 5 0.680694 (366441/1250 : ℝ) (by norm_num) (by norm_num)
    rw [harg2] at h
    linarith

lemma esArg_29315 : (7.7575653 : ℝ) ≤ esArg 293.15 ∧ esArg 293.15 ≤ 7.7576170 := by
  obtain ⟨hL1, hL2⟩ := log_29315
  unfold esArg
  norm_num
  constructor <;> linarith

lemma es_20_bounds : (23.390 : ℝ) ≤ es 20 ∧ es 20 ≤ 23.395 := by
  obtain ⟨hA1, hA2⟩ := esArg_29315
  have heq : es 20 = Real.exp (esArg 293.15) * 0.01 := by
    rw [es_esArg]
    norm_num
  rw [heq]
  have harg1 : ((7 : ℕ) : ℝ) + 0.7575653 = 7.7575653 := by norm_num
  have harg2 : ((7 : ℕ) : ℝ) + 0.7576170 = 7.7576170 := by norm_num
  have hlo : (2339 : ℝ) ≤ Real.exp (7.7575653 : ℝ) := by
    have h := le_exp_est 7 0.7575653 (2339 : ℝ) (by norm_num) (by norm_num)
    rwa [harg1] at h
  have hhi : Real.exp (7.7576170 : ℝ) ≤ 4679/2 := by
    have h := exp_le_est 7 0.7576170 (4679/2 : ℝ) (by norm_num) (by norm_num) (by norm_num)
    rwa [harg2] at h
  have m1 := Real.exp_le_exp.mpr hA1
  have m2 := Real.exp_le_exp.mpr hA2
  constructor <;> linarith


lemma log_37315 : (5.921977 : ℝ) < Real.log 373.15 ∧ Real.log 373.15 < 5.921984 := by
  have harg1 : ((5 : ℕ) : ℝ) + 0.921977 = 5.921977 := by norm_num
  have harg2 : ((5 : ℕ) : ℝ) + 0.921984 = 5.921984 := by norm_num
  refine log_between (by norm_num) ?_ ?_
  · have h := exp_le_est 5 0.921977 (233218/625 : ℝ) (by norm_num) (by norm_num) (by norm_num)
    rw [harg1] at h
    linarith
  · have h := le_exp_est 5 0.921984 (466439/1250 : ℝ) (by norm_num) (by norm_num)
    rw [harg2] at h
    linarith

lemma esArg_37315 : (11.5269941 : ℝ) ≤ esArg 373.15 ∧ esArg 373.15 ≤ 11.5270132 := by
  obtain ⟨hL1, hL2⟩ := log_37315
  unfold esArg
  norm_num
  constructor <;> linarith

lemma es_100_bounds : (1014.10 : ℝ) ≤ es 100 ∧ es 100 ≤ 1014.22 := by
  obtain ⟨hA1, hA2⟩ := esArg_37315
  have heq : es 100 = Real.exp (esArg 373.15) * 0.01 := by
    rw [es_esArg]
    norm_num
  rw [heq]
  have harg1 : ((11 : ℕ) : ℝ) + 0.5269941 = 11.5269941 := by norm_num
  have harg2 : ((11 : ℕ) : ℝ) + 0.5270132 = 11.5270132 := by norm_num
  have hlo : (101410 : ℝ) ≤ Real.exp (11.5269941 : ℝ) := by
    have h := le_exp_est 11 0.5269941 (101410 : ℝ) (by norm_num) (by norm_num)
    rwa [harg1] at h
  have hhi : Real.exp (11.5270132 : ℝ) ≤ 101422 := by
    have h := exp_le_est 11 0.5270132 (101422 : ℝ) (by norm_num) (by norm_num) (by norm_num)
    rwa [harg2] at h
  have m1 := Real.exp_le_exp.mpr hA1
  have m2 := Real.exp_le_exp.mpr hA2
  constructor <;> linarith


lemma log_23315 : (5.451670 : ℝ) < Real.log 233.15 ∧ Real.log 233.15 < 5.451690 := by
  have harg1 : ((5 : ℕ) : ℝ) + 0.451670 = 5.451670 := by norm_num
  have harg2 : ((5 : ℕ) : ℝ) + 0.451690 = 5.451690 := by norm_num
  refine log_between (by norm_num) ?_ ?_
  · have h := exp_le_est 5 0.451670 (145717/625 : ℝ) (by norm_num) (by norm_num) (by norm_num)
    rw [harg1] at h
    linarith
  · have h := le_exp_est 5 0.451690 (1165759/5000 : ℝ) (by norm_num) (by norm_num)
    rw [harg2] at h
    linarith

lemma esArg_23315 : (2.9460417 : ℝ) ≤ esArg 233.15 ∧ esArg 233.15 ≤ 2.9460961 := by
  obtain ⟨hL1, hL2⟩ := log_23315
  unfold esArg
  norm_num
  constructor <;> linarith

lemma es_m40_bounds : (0.1900 : ℝ) ≤ es (-40) ∧ es (-40) ≤ 0.1906 := by
  obtain ⟨hA1, hA2⟩ := esArg_23315
  have heq : es (-40) = Real.exp (esArg 233.15) * 0.01 := by
    rw [es_esArg]
    norm_num
  rw [heq]
  have harg1 : ((2 : ℕ) : ℝ) + 0.9460417 = 2.9460417 := by norm_num
  have harg2 : ((2 : ℕ) : ℝ) + 0.9460961 = 2.9460961 := by norm_num
  have hlo : (19 : ℝ) ≤ Real.exp (2.9460417 : ℝ) := by
    have h := le_exp_est 2 0.9460417 (19 : ℝ) (by norm_num) (by norm_num)
    rwa [harg1] at h
  have hhi : Real.exp (2.9460961 : ℝ) ≤ 953/50 := by
    have h := exp_le_est 2 0.9460961 (953/50 : ℝ) (by norm_num) (by norm_num) (by norm_num)
    rwa [harg2] at h
  have m1 := Real.exp_le_exp.mpr hA1
  have m2 := Real.exp_le_exp.mpr hA2
  constructor <;> linarith


lemma log_29815 : (5.697590 : ℝ) < Real.log 298.15 ∧ Real.log 298.15 < 5.697604 := by
  have harg1 : ((5 : ℕ) : ℝ) + 0.697590 = 5.697590 := by norm_num
  have harg2 : ((5 : ℕ) : ℝ) + 0.697604 = 5.697604 := by norm_num
  refine log_between (by norm_num) ?_ ?_
  · have h := exp_le_est 5 0.697590 (74537/250 : ℝ) (by norm_num) (by norm_num) (by norm_num)
    rw [harg1] at h
    linarith
  · have h := le_exp_est 5 0.697604 (2981521/10000 : ℝ) (by norm_num) (by norm_num)
    rw [harg2] at h
    linarith

lemma esArg_29815 : (8.0614434 : ℝ) ≤ esArg 298.15 ∧ esArg 298.15 ≤ 8.0614815 := by
  obtain ⟨hL1, hL2⟩ := log_29815
  unfold esArg
  norm_num
  constructor <;> linarith

lemma es_25_bounds : (31.69 : ℝ) ≤ es 25 ∧ es 25 ≤ 31.71 := by
  obtain ⟨hA1, hA2⟩ := esArg_29815
  have heq : es 25 = Real.exp (esArg 298.15) * 0.01 := by
    rw [es_esArg]
    norm_num
  rw [heq]
  have harg1 : ((8 : ℕ) : ℝ) + 0.0614434 = 8.0614434 := by norm_num
  have harg2 : ((8 : ℕ) : ℝ) + 0.0614815 = 8.0614815 := by norm_num
  have hlo : (3169 : ℝ) ≤ Real.exp (8.0614434 : ℝ) := by
    have h := le_exp_est 8 0.0614434 (3169 : ℝ) (by norm_num) (by norm_num)
    rwa [harg1] at h
  have hhi : Real.exp (8.0614815 : ℝ) ≤ 3171 := by
    have h := exp_le_est 8 0.0614815 (3171 : ℝ) (by norm_num) (by norm_num) (by norm_num)
    rwa [harg2] at h
  have m1 := Real.exp_le_exp.mpr hA1
  have m2 := Real.exp_le_exp.mpr hA2
  constructor <;> linarith

lemma esArg_div_form (t : ℝ) (ht : t ≠ 0) :
    esArg t = 2.7150305 * Real.log t - 2836.5744 / t ^ 2 - 6028.076559 / t + 19.54263612 -
      2.737830188e-2 * t + 1.6261698e-5 * t ^ 2 + 7.0229056e-10 * t ^ 3 -
      1.8680009e-13 * t ^ 4 := by
  unfold esArg
  simp only [zpow_neg]
  norm_num [zpow_ofNat]
  field_simp
  ring

lemma esArg_lt (t1 t2 : ℝ) (h1 : 223.15 ≤ t1) (hlt : t1 < t2) (h2 : t2 ≤ 323.15) :
    esArg t1 < esArg t2 := by
  have ht1 : (0 : ℝ) < t1 := by linarith
  have ht2 : (0 : ℝ) < t2 := by linarith
  rw [esArg_div_form t1 ht1.ne', esArg_div_form t2 ht2.ne']
  have plog : Real.log t1 < Real.log t2 := Real.log_lt_log ht1 hlt
  have pg0 : 2836.5744 / t2 ^ 2 ≤ 2836.5744 / t1 ^ 2 := by
    apply div_le_div_of_nonneg_left (by norm_num) (by positivity)
    nlinarith
  have pg1 : 6028.076559 / t1 - 6028.076559 / t2 ≥ 0.0577 * (t2 - t1) := by
    have key : 6028.076559 / t1 - 6028.076559 / t2 = 6028.076559 * (t2 - t1) / (t1 * t2) := by
      field_simp
      ring
    rw [ge_iff_le, key, le_div_iff₀ (by positivity)]
    have hprod : t1 * t2 ≤ 104425.9225 := by nlinarith
    nlinarith [mul_nonneg (sub_nonneg.mpr hlt.le) (sub_nonneg.mpr hprod)]
  have h13 : t1 ^ 3 ≤ 323.15 ^ 3 := pow_le_pow_left₀ ht1.le (by linarith) 3
  have h23 : t2 ^ 3 ≤ 323.15 ^ 3 := pow_le_pow_left₀ ht2.le h2 3
  have h12 : t1 ^ 2 ≤ 323.15 ^ 2 := pow_le_pow_left₀ ht1.le (by linarith) 2
  have h22 : t2 ^ 2 ≤ 323.15 ^ 2 := pow_le_pow_left₀ ht2.le h2 2
  have pg6 : (-1.8680009e-13 : ℝ) * t2 ^ 4 - (-1.8680009e-13) * t1 ^ 4 ≥
      -2.6e-5 * (t2 - t1) := by
    have key : t2 ^ 4 - t1 ^ 4 = (t2 - t1) * (t2 ^ 3 + t2 ^ 2 * t1 + t2 * t1 ^ 2 + t1 ^ 3) := by
      ring
    have hfac : t2 ^ 3 + t2 ^ 2 * t1 + t2 * t1 ^ 2 + t1 ^ 3 ≤ 4 * 323.15 ^ 3 := by
      nlinarith [mul_le_mul h22 (le_trans hlt.le h2) ht1.le
          (by positivity : (0:ℝ) ≤ 323.15 ^ 2),
        mul_le_mul h2 h12 (by positivity) (by norm_num : (0:ℝ) ≤ 323.15)]
    nlinarith [mul_nonneg (sub_nonneg.mpr hlt.le) (sub_nonneg.mpr hfac)]
  have pg4 : (1.6261698e-5 : ℝ) * t1 ^ 2 ≤ 1.6261698e-5 * t2 ^ 2 := by nlinarith
  have pg5 : (7.0229056e-10 : ℝ) * t1 ^ 3 ≤ 7.0229056e-10 * t2 ^ 3 := by
    have h := pow_le_pow_left₀ ht1.le hlt.le 3
    nlinarith
  linarith [plog, pg0, pg1, pg4, pg5, pg6]

lemma es_lt_es (ta1 ta2 : ℝ) (ha : -50 ≤ ta1) (hb : ta2 ≤ 50) (hc : ta1 < ta2) :
    es ta1 < es ta2 := by
  rw [es_esArg, es_esArg]
  have h := esArg_lt (ta1 + 273.15) (ta2 + 273.15) (by linarith) (by linarith) (by linarith)
  have h2 := Real.exp_lt_exp.mpr h
  linarith

set_option maxHeartbeats 1000000 in
lemma utci_example_bounds (vp : ℝ) (h1 : 19.01 ≤ vp) (h2 : vp ≤ 19.03) :
    25.62 ≤ utci_approx 25 vp 30 2 ∧ utci_approx 25 vp 30 2 ≤ 25.65 := by
  have hv0 : (0 : ℝ) ≤ vp := by linarith
  have l2 : (19.01 : ℝ) ^ 2 ≤ vp ^ 2 := pow_le_pow_left₀ (by norm_num) h1 2
  have u2 : vp ^ 2 ≤ (19.03 : ℝ) ^ 2 := pow_le_pow_left₀ hv0 h2 2
  have l3 : (19.01 : ℝ) ^ 3 ≤ vp ^ 3 := pow_le_pow_left₀ (by norm_num) h1 3
  have u3 : vp ^ 3 ≤ (19.03 : ℝ) ^ 3 := pow_le_pow_left₀ hv0 h2 3
  have l4 : (19.01 : ℝ) ^ 4 ≤ vp ^ 4 := pow_le_pow_left₀ (by norm_num) h1 4
  have u4 : vp ^ 4 ≤ (19.03 : ℝ) ^ 4 := pow_le_pow_left₀ hv0 h2 4
  have l5 : (19.01 : ℝ) ^ 5 ≤ vp ^ 5 := pow_le_pow_left₀ (by norm_num) h1 5
  have u5 : vp ^ 5 ≤ (19.03 : ℝ) ^ 5 := pow_le_pow_left₀ hv0 h2 5
  have l6 : (19.01 : ℝ) ^ 6 ≤ vp ^ 6 := pow_le_pow_left₀ (by norm_num) h1 6
  have u6 : vp ^ 6 ≤ (19.03 : ℝ) ^ 6 := pow_le_pow_left₀ hv0 h2 6
  simp only [utci_approx]
  constructor <;> ring_nf <;> linarith

set_option maxHeartbeats 4000000 in
set_option maxRecDepth 4000 in
/-- C1: `utci_approx` returns `ta` plus the value of the fixed reference
polynomial: the sum of exactly 210 monomial terms, each a literal coefficient
times powers of `ta`, `va`, `d_tmrt = tmrt - ta` and `pa = eh_pa / 10`, with
no term of combined degree above 6. -/
theorem claim_C1 (ta eh_pa tmrt va : ℝ) :
    utci_approx ta eh_pa tmrt va = ta + polyP ta va (tmrt - ta) (eh_pa / 10.0) ∧
    utciTerms.length = 210 ∧
    ∀ t ∈ utciTerms, t.2.1 + t.2.2.1 + t.2.2.2.1 + t.2.2.2.2 ≤ 6 := by
  refine ⟨?_, rfl, ?_⟩
  · simp only [utci_approx, polyP, utciTerms, List.map_cons, List.map_nil,
      List.sum_cons, List.sum_nil]
    ring
  · simp only [utciTerms, List.forall_mem_cons, List.forall_mem_nil, and_true]
    norm_num

/-- C2: `es` returns `exp (g 7 * log tk + Σ i in 0..6, g i * tk ^ (i - 2)) * 0.01`
with `tk = ta + 273.15`, and the table `g` holds exactly the eight Hardy ITS-90
coefficients. -/
theorem claim_C2 (ta : ℝ) :
    es ta = Real.exp (g 7 * Real.log (ta + 273.15) +
      ∑ i ∈ Finset.range 7, g i * (ta + 273.15) ^ ((i : ℤ) - 2)) * 0.01 ∧
    g 0 = -2.8365744e3 ∧ g 1 = -6.028076559e3 ∧ g 2 = 1.954263612e1 ∧
    g 3 = -2.737830188e-2 ∧ g 4 = 1.6261698e-5 ∧ g 5 = 7.0229056e-10 ∧
    g 6 = -1.8680009e-13 ∧ g 7 = 2.7150305 := by
  refine ⟨?_, rfl, rfl, rfl, rfl, rfl, rfl, rfl, rfl⟩
  simp only [es, g, Finset.sum_range_succ, Finset.sum_range_zero, List.range_succ,
    List.range_zero, List.nil_append, List.cons_append, List.foldl_cons, List.foldl_nil]
  norm_num
  ring_nf

/-- C3: `rh_to_vp` returns `es ta * rh / 100` for every `ta` and `rh`, with no
validation of `rh`: any value simply scales the result linearly. -/
theorem claim_C3 (ta rh : ℝ) :
    rh_to_vp ta rh = es ta * rh / 100.0 ∧
    ∀ c : ℝ, rh_to_vp ta (c * rh) = c * rh_to_vp ta rh := by
  refine ⟨rfl, fun c => ?_⟩
  simp only [rh_to_vp]
  ring

/-- C4 (counterexample): at the worked example the code yields a UTCI of about
25.63 °C, so the claimed value 26.5 °C (within 0.2) is false. -/
theorem claim_C4_counterexample :
    ¬ |utci_approx 25 (rh_to_vp 25 60) 30 2 - 26.5| ≤ 0.2 := by
  have hes := es_25_bounds
  have hvp1 : (19.01 : ℝ) ≤ rh_to_vp 25 60 := by
    simp only [rh_to_vp]
    linarith [hes.1]
  have hvp2 : rh_to_vp 25 60 ≤ 19.03 := by
    simp only [rh_to_vp]
    linarith [hes.2]
  have hb := utci_example_bounds _ hvp1 hvp2
  intro h
  rw [abs_le] at h
  linarith [h.1, hb.2]

/-- C4 (amended): for the worked example `ta=25, rh=60, tmrt=30, va=2`, the
vapor pressure is about 19.02 hPa (within 0.01), `utci_approx` returns about
25.63 °C (within 0.2), and that value is classified "no thermal stress". -/
theorem claim_C4_amended :
    |rh_to_vp 25 60 - 19.02| ≤ 0.01 ∧
    |utci_approx 25 (rh_to_vp 25 60) 30 2 - 25.63| ≤ 0.2 ∧
    comfort (utci_approx 25 (rh_to_vp 25 60) 30 2) = "no thermal stress" := by
  have hes := es_25_bounds
  have hvp1 : (19.01 : ℝ) ≤ rh_to_vp 25 60 := by
    simp only [rh_to_vp]
    linarith [hes.1]
  have hvp2 : rh_to_vp 25 60 ≤ 19.03 := by
    simp only [rh_to_vp]
    linarith [hes.2]
  have hb := utci_example_bounds _ hvp1 hvp2
  have hlo := hb.1
  have hhi := hb.2
  refine ⟨?_, ?_, ?_⟩
  · rw [abs_le]
    constructor <;> linarith
  · rw [abs_le]
    constructor <;> linarith
  · simp only [comfort]
    rw [if_neg (by linarith), if_neg (by linarith), if_neg (by linarith),
      if_neg (by linarith), if_neg (by linarith), if_pos (by linarith)]

/-- C5: the saturation-vapor-pressure reference values: `es 0 ≈ 6.112` (±0.01),
`es 20 ≈ 23.388` (±0.1), `es 100 ≈ 1013.25` (±1.0), `es (-40) ≈ 0.1903` (±0.01). -/
theorem claim_C5 :
    |es 0 - 6.112| ≤ 0.01 ∧ |es 20 - 23.388| ≤ 0.1 ∧
    |es 100 - 1013.25| ≤ 1.0 ∧ |es (-40) - 0.1903| ≤ 0.01 := by
  have h0 := es_0_bounds
  have h20 := es_20_bounds
  have h100 := es_100_bounds
  have h40 := es_m40_bounds
  refine ⟨?_, ?_, ?_, ?_⟩ <;> rw [abs_le] <;>
    exact ⟨by linarith [h0.1, h20.1, h100.1, h40.1], by linarith [h0.2, h20.2, h100.2, h40.2]⟩

/-- C6: `es` is strictly increasing on the interval [-50, 50]. -/
theorem claim_C6 (ta1 ta2 : ℝ) (ha1 : -50 ≤ ta1) (ha2 : ta1 ≤ 50) (hb1 : -50 ≤ ta2)
    (hb2 : ta2 ≤ 50) (hlt : ta1 < ta2) : es ta1 < es ta2 :=
  es_lt_es ta1 ta2 ha1 hb2 hlt

/-- C6 witness: the strict monotonicity theorem applied at `ta1 = 0`, `ta2 = 10`. -/
theorem claim_C6_witness : es 0 < es 10 :=
  claim_C6 0 10 (by norm_num) (by norm_num) (by norm_num) (by norm_num) (by norm_num)

/-- C7: converting a relative humidity of zero yields exactly zero vapor
pressure, for every air temperature. -/
theorem claim_C7 (ta : ℝ) : rh_to_vp ta 0.0 = 0.0 := by
  simp only [rh_to_vp]
  norm_num

/-- C8: for `ta` in [-40, 50] and `rh` in [0, 100], the vapor pressure lies
between 0 and the saturation vapor pressure. -/
theorem claim_C8 (ta rh : ℝ) (h1 : -40 ≤ ta) (h2 : ta ≤ 50) (h3 : 0 ≤ rh)
    (h4 : rh ≤ 100) : 0 ≤ rh_to_vp ta rh ∧ rh_to_vp ta rh ≤ es ta := by
  have hp := es_pos ta
  constructor
  · simp only [rh_to_vp]
    apply div_nonneg (mul_nonneg hp.le h3) (by norm_num)
  · simp only [rh_to_vp]
    rw [div_le_iff₀ (by norm_num)]
    nlinarith [mul_le_mul_of_nonneg_left h4 hp.le]

/-- C8 witness: the bound applied at `ta = 0`, `rh = 50`. -/
theorem claim_C8_witness : 0 ≤ rh_to_vp 0 50 ∧ rh_to_vp 0 50 ≤ es 0 :=
  claim_C8 0 50 (by norm_num) (by norm_num) (by norm_num) (by norm_num)

/-- C10: the saturation vapor pressure is strictly positive for every input,
being `exp` of a real exponent times the positive constant 0.01. -/
theorem claim_C10 (ta : ℝ) : 0 < es ta :=
  es_pos ta

end Utci
